import Mathlib

/-!
Verification of the obstacle-map collision system of the Open Surge engine
(src/physics/obstaclemap.c): the obstacle container, its queries
(get_best_obstacle_at, obstacle_exists, solid_exists, clear), the
tie-break function pick_best_obstacle and the layer predicate
ignore_obstacle, shallowly embedded in Lean.
-/

namespace ObstacleMap

/-- movmode_t from physicsactor.h: the four cardinal movement modes. -/
inductive movmode_t where
  | MM_FLOOR
  | MM_RIGHTWALL
  | MM_CEILING
  | MM_LEFTWALL
deriving DecidableEq, Repr

export movmode_t (MM_FLOOR MM_RIGHTWALL MM_CEILING MM_LEFTWALL)

/-- grounddir_t from obstacle.h: the direction along which a ground
position is measured. -/
inductive grounddir_t where
  | GD_UP
  | GD_DOWN
  | GD_LEFT
  | GD_RIGHT
deriving DecidableEq, Repr

export grounddir_t (GD_UP GD_DOWN GD_LEFT GD_RIGHT)

/-- obstaclelayer_t from obstacle.h: the default (wildcard) layer plus
named alternate layers. -/
inductive obstaclelayer_t where
  | OL_DEFAULT
  | OL_GREEN
  | OL_YELLOW
deriving DecidableEq, Repr

export obstaclelayer_t (OL_DEFAULT OL_GREEN OL_YELLOW)

/-- The external obstacle contract consumed by obstaclemap.c: an obstacle
exposes its solidity (obstacle_is_solid), its layer (obstacle_get_layer),
a bounding-box collision test (obstacle_got_collision) and a ground
position query (obstacle_ground_position). The obstacle is opaque to the
map, so it is embedded as a record of these observable behaviours. -/
structure obstacle_t where
  is_solid : Bool
  layer : obstaclelayer_t
  got_collision : Int → Int → Int → Int → Bool
  ground_position : Int → Int → grounddir_t → Int

/-- An obstacle map is just a sequence of (non-owning) obstacle
references, in insertion order (struct obstaclemap_t, a DARRAY). -/
abbrev obstaclemap_t := List obstacle_t

/-- obstaclemap_create: a new empty map. -/
def obstaclemap_create : obstaclemap_t := []

/-- obstaclemap_add_obstacle: appends a reference to the end. -/
def obstaclemap_add_obstacle (obstaclemap : obstaclemap_t) (obstacle : obstacle_t) : obstaclemap_t :=
  obstaclemap ++ [obstacle]

/-- obstaclemap_clear: removes all obstacles from the obstacle map. -/
def obstaclemap_clear (_ : obstaclemap_t) : obstaclemap_t := []

/-- darray_length of the map's obstacle array. -/
def obstaclemap_length (obstaclemap : obstaclemap_t) : Nat :=
  obstaclemap.length

/-- ignore_obstacle: whether or not the given obstacle should be ignored,
given a layer filter (obstaclemap.c line 185). -/
def ignore_obstacle (obstacle : obstacle_t) (layer_filter : obstaclelayer_t) : Bool :=
  layer_filter != OL_DEFAULT && obstacle.layer != OL_DEFAULT && obstacle.layer != layer_filter

/-- pick_best_obstacle (obstaclemap.c line 106): considering that a and b
overlap the probe, which one should we pick? NULL pointers are embedded
as none. The structure follows the C exactly: NULL handling, then
solid-dominates-one-way, then the one-way switch, then the both-solid
("tallest obstacle") switch. -/
def pick_best_obstacle (a b : Option obstacle_t) (x1 y1 x2 y2 : Int) (mm : movmode_t) : Option obstacle_t :=
  match a, b with
  | none, b => b
  | a, none => a
  | some a', some b' =>
    if !a'.is_solid && b'.is_solid then some b'
    else if !b'.is_solid && a'.is_solid then some a'
    else if !a'.is_solid && !b'.is_solid then
      /- one-way platforms only: get the shortest obstacle.
         ha and hb are the C locals, inlined. -/
      match mm with
      | MM_FLOOR =>
        if a'.ground_position x2 y2 GD_DOWN >= b'.ground_position x2 y2 GD_DOWN
        then some a' else some b'
      | MM_RIGHTWALL =>
        if a'.ground_position x2 y2 GD_RIGHT >= b'.ground_position x2 y2 GD_RIGHT
        then some a' else some b'
      | MM_CEILING =>
        if a'.ground_position x2 y1 GD_UP < b'.ground_position x2 y1 GD_UP
        then some a' else some b'
      | MM_LEFTWALL =>
        if a'.ground_position x1 y2 GD_LEFT < b'.ground_position x1 y2 GD_LEFT
        then some a' else some b'
    else
      /- both solid: get the tallest obstacle -/
      match mm with
      | MM_FLOOR =>
        if a'.ground_position x2 y2 GD_DOWN < b'.ground_position x2 y2 GD_DOWN
        then some a' else some b'
      | MM_LEFTWALL =>
        if a'.ground_position x1 y2 GD_LEFT >= b'.ground_position x1 y2 GD_LEFT
        then some a' else some b'
      | MM_CEILING =>
        if a'.ground_position x2 y1 GD_UP >= b'.ground_position x2 y1 GD_UP
        then some a' else some b'
      | MM_RIGHTWALL =>
        if a'.ground_position x2 y2 GD_RIGHT < b'.ground_position x2 y2 GD_RIGHT
        then some a' else some b'

/-- obstaclemap_get_best_obstacle_at (obstaclemap.c line 58): linear scan
over the registered obstacles; skip ignored ones and non-colliding ones;
fold the rest through pick_best_obstacle, the current candidate obstacle
passed first and the accumulated best second, starting from NULL. -/
def obstaclemap_get_best_obstacle_at (obstaclemap : obstaclemap_t) (x1 y1 x2 y2 : Int) (mm : movmode_t) (layer_filter : obstaclelayer_t) : Option obstacle_t :=
  obstaclemap.foldl
    (fun best obstacle =>
      if !ignore_obstacle obstacle layer_filter && obstacle.got_collision x1 y1 x2 y2 then
        pick_best_obstacle (some obstacle) best x1 y1 x2 y2 mm
      else
        best)
    none

/-- obstaclemap_obstacle_exists (obstaclemap.c line 72): true iff some
non-ignored obstacle collides with the degenerate rectangle (x,y,x,y). -/
def obstaclemap_obstacle_exists (obstaclemap : obstaclemap_t) (x y : Int) (layer_filter : obstaclelayer_t) : Bool :=
  obstaclemap.any (fun obstacle =>
    !ignore_obstacle obstacle layer_filter && obstacle.got_collision x y x y)

/-- obstaclemap_solid_exists (obstaclemap.c line 84): like
obstacle_exists but additionally requires solidity. -/
def obstaclemap_solid_exists (obstaclemap : obstaclemap_t) (x y : Int) (layer_filter : obstaclelayer_t) : Bool :=
  obstaclemap.any (fun obstacle =>
    !ignore_obstacle obstacle layer_filter && obstacle.got_collision x y x y && obstacle.is_solid)

/-! Concrete sample obstacles, used to instantiate theorems at concrete
inputs. Their collision test always succeeds and their ground position is
a constant, which is a legal behaviour of the opaque obstacle contract. -/

/-- A solid obstacle on the default layer with constant ground position 0. -/
def solidLow : obstacle_t :=
  { is_solid := true, layer := OL_DEFAULT,
    got_collision := fun _ _ _ _ => true,
    ground_position := fun _ _ _ => 0 }

/-- A solid obstacle on the yellow layer with constant ground position 1. -/
def solidHigh : obstacle_t :=
  { is_solid := true, layer := OL_YELLOW,
    got_collision := fun _ _ _ _ => true,
    ground_position := fun _ _ _ => 1 }

/-- A one-way platform on the green layer with constant ground position 0. -/
def onewayLow : obstacle_t :=
  { is_solid := false, layer := OL_GREEN,
    got_collision := fun _ _ _ _ => true,
    ground_position := fun _ _ _ => 0 }

/-- A one-way platform on the yellow layer with constant ground position 1. -/
def onewayHigh : obstacle_t :=
  { is_solid := false, layer := OL_YELLOW,
    got_collision := fun _ _ _ _ => true,
    ground_position := fun _ _ _ => 1 }

/-- A one-way platform on the default layer with constant ground position 0. -/
def onewayTie : obstacle_t :=
  { is_solid := false, layer := OL_DEFAULT,
    got_collision := fun _ _ _ _ => true,
    ground_position := fun _ _ _ => 0 }

/-! Helper lemmas about the tie-break function and the query fold. -/

/-- pick_best_obstacle with a non-NULL first argument never returns NULL:
every branch of the C function returns a or b, and b is only returned
from branches where it was checked or is the non-NULL one. -/
theorem pick_some_isSome (a' : obstacle_t) (b : Option obstacle_t) (x1 y1 x2 y2 : Int) (mm : movmode_t) :
    (pick_best_obstacle (some a') b x1 y1 x2 y2 mm).isSome = true := by
  cases b with
  | none => rfl
  | some b' =>
    simp only [pick_best_obstacle]
    repeat' split
    all_goals rfl

/-- pick_best_obstacle always returns one of its two arguments. -/
theorem pick_eq_fst_or_snd (a b : Option obstacle_t) (x1 y1 x2 y2 : Int) (mm : movmode_t) :
    pick_best_obstacle a b x1 y1 x2 y2 mm = a ∨ pick_best_obstacle a b x1 y1 x2 y2 mm = b := by
  cases a with
  | none =>
    cases b with
    | none => left; rfl
    | some b' => right; rfl
  | some a' =>
    cases b with
    | none => left; rfl
    | some b' =>
      simp only [pick_best_obstacle]
      repeat' split
      all_goals simp

/-- The fold inside obstaclemap_get_best_obstacle_at yields NULL iff the
accumulator is NULL and no scanned obstacle passes the filter-and-collision
test. -/
theorem foldl_best_eq_none_iff (x1 y1 x2 y2 : Int) (mm : movmode_t) (layer_filter : obstaclelayer_t) (l : List obstacle_t) :
    ∀ acc : Option obstacle_t,
      (l.foldl
        (fun best obstacle =>
          if !ignore_obstacle obstacle layer_filter && obstacle.got_collision x1 y1 x2 y2 then
            pick_best_obstacle (some obstacle) best x1 y1 x2 y2 mm
          else
            best)
        acc = none)
      ↔ (acc = none ∧ ∀ o ∈ l, (!ignore_obstacle o layer_filter && o.got_collision x1 y1 x2 y2) = false) := by
  induction l with
  | nil => intro acc; simp
  | cons o t ih =>
    intro acc
    rw [List.foldl_cons, ih]
    by_cases hc : (!ignore_obstacle o layer_filter && o.got_collision x1 y1 x2 y2) = true
    · rw [if_pos hc]
      constructor
      · rintro ⟨hnone, -⟩
        have hsome := pick_some_isSome o acc x1 y1 x2 y2 mm
        rw [hnone] at hsome
        simp at hsome
      · rintro ⟨-, hall⟩
        have h0 := hall o (List.mem_cons_self o t)
        rw [hc] at h0
        cases h0
    · rw [if_neg hc]
      have hcf : (!ignore_obstacle o layer_filter && o.got_collision x1 y1 x2 y2) = false :=
        Bool.eq_false_iff.mpr hc
      constructor
      · rintro ⟨hacc, hall⟩
        refine ⟨hacc, fun o' ho' => ?_⟩
        rcases List.mem_cons.mp ho' with h | h
        · exact h ▸ hcf
        · exact hall o' h
      · rintro ⟨hacc, hall⟩
        exact ⟨hacc, fun o' ho' => hall o' (List.mem_cons_of_mem o ho')⟩

/-! Claim theorems. -/

/-- C1: for every obstacle map, probe rectangle (x1,y1,x2,y2) with
x1 <= x2 and y1 <= y2, movement mode and layer filter,
obstaclemap_get_best_obstacle_at returns none if and only if no registered
obstacle both passes the layer filter (ignore_obstacle false) and reports
a collision with the probe rectangle; the none result is an ordinary
value, not an error. -/
theorem C1_get_best_none_iff (m : obstaclemap_t) (x1 y1 x2 y2 : Int) (mm : movmode_t) (lf : obstaclelayer_t)
    (hx : x1 ≤ x2) (hy : y1 ≤ y2) :
    obstaclemap_get_best_obstacle_at m x1 y1 x2 y2 mm lf = none ↔
      ∀ o ∈ m, ¬(ignore_obstacle o lf = false ∧ o.got_collision x1 y1 x2 y2 = true) := by
  unfold obstaclemap_get_best_obstacle_at
  rw [foldl_best_eq_none_iff x1 y1 x2 y2 mm lf m none]
  constructor
  · rintro ⟨-, hall⟩ o ho ⟨hig, hcol⟩
    have h0 := hall o ho
    rw [hig, hcol] at h0
    simp at h0
  · intro hall
    refine ⟨rfl, fun o ho => ?_⟩
    by_cases hig : ignore_obstacle o lf = true
    · simp [hig]
    · have hig' : ignore_obstacle o lf = false := Bool.eq_false_iff.mpr hig
      have hcol : o.got_collision x1 y1 x2 y2 = false := by
        rcases Bool.eq_false_or_eq_true (o.got_collision x1 y1 x2 y2) with h | h
        · exact absurd ⟨hig', h⟩ (hall o ho)
        · exact h
      simp [hcol]

/-- C1 witness: the theorem instantiated at a concrete map with one
always-colliding solid obstacle, the unit probe rectangle, FLOOR mode and
the default filter. -/
theorem C1_get_best_none_iff_witness :
    (0 : Int) ≤ 1 ∧ (0 : Int) ≤ 1 ∧
    (obstaclemap_get_best_obstacle_at [solidLow] 0 0 1 1 MM_FLOOR OL_DEFAULT = none ↔
      ∀ o ∈ ([solidLow] : obstaclemap_t),
        ¬(ignore_obstacle o OL_DEFAULT = false ∧ o.got_collision 0 0 1 1 = true)) :=
  ⟨by decide, by decide,
    C1_get_best_none_iff [solidLow] 0 0 1 1 MM_FLOOR OL_DEFAULT (by decide) (by decide)⟩

/-- C6: ignore_obstacle(obstacle, filter) is true iff
filter != DEFAULT and obstacle.layer != DEFAULT and obstacle.layer != filter;
in particular it is false when filter == DEFAULT, when the layer is
DEFAULT, and when the layer equals the filter. -/
theorem C6_ignore_iff (o : obstacle_t) (lf : obstaclelayer_t) :
    (ignore_obstacle o lf = true ↔
      (lf ≠ OL_DEFAULT ∧ o.layer ≠ OL_DEFAULT ∧ o.layer ≠ lf)) ∧
    (lf = OL_DEFAULT → ignore_obstacle o lf = false) ∧
    (o.layer = OL_DEFAULT → ignore_obstacle o lf = false) ∧
    (o.layer = lf → ignore_obstacle o lf = false) := by
  refine ⟨?_, ?_, ?_, ?_⟩
  · simp [ignore_obstacle, and_assoc]
  · intro h; subst h; simp [ignore_obstacle]
  · intro h; simp [ignore_obstacle, h]
  · intro h; simp [ignore_obstacle, h]

/-- C6 witness: the theorem instantiated at a concrete obstacle on the
green layer queried with the yellow filter, where all four conjuncts are
concrete. -/
theorem C6_ignore_iff_witness :
    (ignore_obstacle onewayLow OL_YELLOW = true ↔
      (OL_YELLOW ≠ OL_DEFAULT ∧ onewayLow.layer ≠ OL_DEFAULT ∧ onewayLow.layer ≠ OL_YELLOW)) ∧
    (OL_YELLOW = OL_DEFAULT → ignore_obstacle onewayLow OL_YELLOW = false) ∧
    (onewayLow.layer = OL_DEFAULT → ignore_obstacle onewayLow OL_YELLOW = false) ∧
    (onewayLow.layer = OL_YELLOW → ignore_obstacle onewayLow OL_YELLOW = false) :=
  C6_ignore_iff onewayLow OL_YELLOW

/-- C8: NULL is an identity of pick_best_obstacle on either side, the
result is always one of the two arguments, and the result is NULL only
when both arguments are NULL. -/
theorem C8_pick_none_identity (a b : Option obstacle_t) (x1 y1 x2 y2 : Int) (mm : movmode_t) :
    pick_best_obstacle a none x1 y1 x2 y2 mm = a ∧
    pick_best_obstacle none b x1 y1 x2 y2 mm = b ∧
    (pick_best_obstacle a b x1 y1 x2 y2 mm = a ∨ pick_best_obstacle a b x1 y1 x2 y2 mm = b) ∧
    (¬(a = none ∧ b = none) → pick_best_obstacle a b x1 y1 x2 y2 mm ≠ none) := by
  refine ⟨?_, ?_, pick_eq_fst_or_snd a b x1 y1 x2 y2 mm, ?_⟩
  · cases a <;> rfl
  · cases b <;> rfl
  · intro hne hnone
    cases a with
    | none =>
      cases b with
      | none => exact hne ⟨rfl, rfl⟩
      | some b' => exact Option.noConfusion hnone
    | some a' =>
      have hsome := pick_some_isSome a' b x1 y1 x2 y2 mm
      rw [hnone] at hsome
      simp at hsome

/-- C8 witness: the theorem instantiated at two concrete obstacles,
with the non-NULL hypothesis of the last conjunct discharged. -/
theorem C8_pick_none_identity_witness :
    pick_best_obstacle (some solidLow) none 0 0 1 1 MM_CEILING = some solidLow ∧
    pick_best_obstacle none (some onewayLow) 0 0 1 1 MM_CEILING = some onewayLow ∧
    (pick_best_obstacle (some solidLow) (some onewayLow) 0 0 1 1 MM_CEILING = some solidLow ∨
     pick_best_obstacle (some solidLow) (some onewayLow) 0 0 1 1 MM_CEILING = some onewayLow) ∧
    (¬(some solidLow = none ∧ (some onewayLow : Option obstacle_t) = none) →
      pick_best_obstacle (some solidLow) (some onewayLow) 0 0 1 1 MM_CEILING ≠ none) :=
  C8_pick_none_identity (some solidLow) (some onewayLow) 0 0 1 1 MM_CEILING

/-- C9: after clear, the map length is 0 and every query on the cleared
map is empty: get_best_obstacle_at returns none, obstacle_exists and
solid_exists return false, for every probe, point, mode and filter. -/
theorem C9_clear_empty (m : obstaclemap_t) (x1 y1 x2 y2 x y : Int) (mm : movmode_t) (lf : obstaclelayer_t) :
    obstaclemap_length (obstaclemap_clear m) = 0 ∧
    obstaclemap_get_best_obstacle_at (obstaclemap_clear m) x1 y1 x2 y2 mm lf = none ∧
    obstaclemap_obstacle_exists (obstaclemap_clear m) x y lf = false ∧
    obstaclemap_solid_exists (obstaclemap_clear m) x y lf = false :=
  ⟨rfl, rfl, rfl, rfl⟩

/-- C2: if exactly one of two non-None obstacles is solid,
pick_best_obstacle returns the solid one for every mode and probe; and a
map holding exactly one solid and one one-way obstacle, both passing the
filter and both colliding with the probe, yields the solid one from
get_best_obstacle_at. -/
theorem C2_solid_dominates (a b : obstacle_t) (x1 y1 x2 y2 : Int) (mm : movmode_t) (lf : obstaclelayer_t)
    (hne : a.is_solid ≠ b.is_solid) :
    (pick_best_obstacle (some a) (some b) x1 y1 x2 y2 mm =
      (if a.is_solid then some a else some b)) ∧
    (ignore_obstacle a lf = false → ignore_obstacle b lf = false →
     a.got_collision x1 y1 x2 y2 = true → b.got_collision x1 y1 x2 y2 = true →
     obstaclemap_get_best_obstacle_at [a, b] x1 y1 x2 y2 mm lf =
       (if a.is_solid then some a else some b)) := by
  have hpick2 : pick_best_obstacle (some b) (some a) x1 y1 x2 y2 mm =
      (if a.is_solid then some a else some b) := by
    cases hsa : a.is_solid <;> cases hsb : b.is_solid
    · exact absurd (hsa.trans hsb.symm) hne
    · simp [pick_best_obstacle, hsa, hsb]
    · simp [pick_best_obstacle, hsa, hsb]
    · exact absurd (hsa.trans hsb.symm) hne
  have hpick1 : pick_best_obstacle (some a) none x1 y1 x2 y2 mm = some a := rfl
  constructor
  · cases hsa : a.is_solid <;> cases hsb : b.is_solid
    · exact absurd (hsa.trans hsb.symm) hne
    · simp [pick_best_obstacle, hsa, hsb]
    · simp [pick_best_obstacle, hsa, hsb]
    · exact absurd (hsa.trans hsb.symm) hne
  · intro hia hib hca hcb
    simp [obstaclemap_get_best_obstacle_at, hia, hib, hca, hcb, hpick1, hpick2]

/-- C2 witness: a solid and a one-way obstacle, both always colliding and
visible to the default filter; the solid one wins in both conjuncts. -/
theorem C2_solid_dominates_witness :
    solidLow.is_solid ≠ onewayHigh.is_solid ∧
    ((pick_best_obstacle (some solidLow) (some onewayHigh) 0 0 5 5 MM_FLOOR =
        (if solidLow.is_solid then some solidLow else some onewayHigh)) ∧
     (ignore_obstacle solidLow OL_DEFAULT = false → ignore_obstacle onewayHigh OL_DEFAULT = false →
      solidLow.got_collision 0 0 5 5 = true → onewayHigh.got_collision 0 0 5 5 = true →
      obstaclemap_get_best_obstacle_at [solidLow, onewayHigh] 0 0 5 5 MM_FLOOR OL_DEFAULT =
        (if solidLow.is_solid then some solidLow else some onewayHigh))) :=
  ⟨by decide, C2_solid_dominates solidLow onewayHigh 0 0 5 5 MM_FLOOR OL_DEFAULT (by decide)⟩

/-- C3 counterexample: two one-way obstacles with ground positions 0 and 1
at (x2,y2) in direction RIGHT; the claim predicts the strictly lesser one
(onewayLow), but pick_best_obstacle in RIGHT_WALL mode returns
onewayHigh, the one with the greater value. -/
theorem C3_counterexample :
    onewayLow.is_solid = false ∧ onewayHigh.is_solid = false ∧
    onewayLow.ground_position 5 5 GD_RIGHT < onewayHigh.ground_position 5 5 GD_RIGHT ∧
    pick_best_obstacle (some onewayLow) (some onewayHigh) 0 0 5 5 MM_RIGHTWALL = some onewayHigh ∧
    some onewayHigh ≠ (some onewayLow : Option obstacle_t) := by
  refine ⟨rfl, rfl, by decide, rfl, ?_⟩
  intro h
  have hl := congrArg (fun o : Option obstacle_t => o.map obstacle_t.layer) h
  simp [onewayHigh, onewayLow] at hl

/-- C3 (amended): for RIGHT_WALL mode with two non-None one-way
obstacles, pick_best_obstacle compares their ground positions at (x2,y2)
in direction RIGHT and returns the one with the greater-or-equal value
(ha >= hb yields a). -/
theorem C3_rightwall_oneway (a b : obstacle_t) (x1 y1 x2 y2 : Int)
    (hA : a.is_solid = false) (hB : b.is_solid = false) :
    pick_best_obstacle (some a) (some b) x1 y1 x2 y2 MM_RIGHTWALL =
      (if b.ground_position x2 y2 GD_RIGHT ≤ a.ground_position x2 y2 GD_RIGHT
       then some a else some b) := by
  simp [pick_best_obstacle, hA, hB, ge_iff_le]

/-- C3 witness: the amended theorem instantiated at two concrete one-way
obstacles. -/
theorem C3_rightwall_oneway_witness :
    onewayHigh.is_solid = false ∧ onewayLow.is_solid = false ∧
    pick_best_obstacle (some onewayHigh) (some onewayLow) 0 0 5 5 MM_RIGHTWALL =
      (if onewayLow.ground_position 5 5 GD_RIGHT ≤ onewayHigh.ground_position 5 5 GD_RIGHT
       then some onewayHigh else some onewayLow) :=
  ⟨rfl, rfl, C3_rightwall_oneway onewayHigh onewayLow 0 0 5 5 rfl rfl⟩

/-- C4 counterexample: two one-way obstacles with ground positions 0 and 1
at (x1,y2) in direction LEFT; the claim predicts the greater one
(onewayHigh), but pick_best_obstacle in LEFT_WALL mode returns onewayLow,
the one with the strictly lesser value. -/
theorem C4_counterexample :
    onewayLow.is_solid = false ∧ onewayHigh.is_solid = false ∧
    onewayLow.ground_position 0 5 GD_LEFT < onewayHigh.ground_position 0 5 GD_LEFT ∧
    pick_best_obstacle (some onewayLow) (some onewayHigh) 0 0 5 5 MM_LEFTWALL = some onewayLow ∧
    some onewayLow ≠ (some onewayHigh : Option obstacle_t) := by
  refine ⟨rfl, rfl, by decide, rfl, ?_⟩
  intro h
  have hl := congrArg (fun o : Option obstacle_t => o.map obstacle_t.layer) h
  simp [onewayHigh, onewayLow] at hl

/-- C4 (amended): for LEFT_WALL mode with two non-None one-way obstacles,
pick_best_obstacle compares their ground positions at (x1,y2) in
direction LEFT and returns the one with the strictly lesser value
(ha < hb yields a). -/
theorem C4_leftwall_oneway (a b : obstacle_t) (x1 y1 x2 y2 : Int)
    (hA : a.is_solid = false) (hB : b.is_solid = false) :
    pick_best_obstacle (some a) (some b) x1 y1 x2 y2 MM_LEFTWALL =
      (if a.ground_position x1 y2 GD_LEFT < b.ground_position x1 y2 GD_LEFT
       then some a else some b) := by
  simp [pick_best_obstacle, hA, hB]

/-- C4 witness: the amended theorem instantiated at two concrete one-way
obstacles. -/
theorem C4_leftwall_oneway_witness :
    onewayHigh.is_solid = false ∧ onewayLow.is_solid = false ∧
    pick_best_obstacle (some onewayHigh) (some onewayLow) 0 0 5 5 MM_LEFTWALL =
      (if onewayHigh.ground_position 0 5 GD_LEFT < onewayLow.ground_position 0 5 GD_LEFT
       then some onewayHigh else some onewayLow) :=
  ⟨rfl, rfl, C4_leftwall_oneway onewayHigh onewayLow 0 0 5 5 rfl rfl⟩

/-- C5: for FLOOR mode with two non-None solid obstacles whose ground
positions at (x2,y2) in direction DOWN satisfy h_a < h_b,
pick_best_obstacle returns a, the one with the lesser value. -/
theorem C5_floor_solid_lesser (a b : obstacle_t) (x1 y1 x2 y2 : Int)
    (hA : a.is_solid = true) (hB : b.is_solid = true)
    (hlt : a.ground_position x2 y2 GD_DOWN < b.ground_position x2 y2 GD_DOWN) :
    pick_best_obstacle (some a) (some b) x1 y1 x2 y2 MM_FLOOR = some a := by
  simp [pick_best_obstacle, hA, hB, hlt]

/-- C5 witness: two concrete solid obstacles with ground positions 0 < 1;
the first is selected. -/
theorem C5_floor_solid_lesser_witness :
    solidLow.is_solid = true ∧ solidHigh.is_solid = true ∧
    solidLow.ground_position 5 5 GD_DOWN < solidHigh.ground_position 5 5 GD_DOWN ∧
    pick_best_obstacle (some solidLow) (some solidHigh) 0 0 5 5 MM_FLOOR = some solidLow :=
  ⟨rfl, rfl, by decide, C5_floor_solid_lesser solidLow solidHigh 0 0 5 5 rfl rfl (by decide)⟩

/-- C7: obstacle_exists is true iff some non-ignored obstacle collides
with the degenerate rectangle (x,y,x,y); solid_exists additionally
requires solidity; hence solid_exists implies obstacle_exists. -/
theorem C7_exists_queries (m : obstaclemap_t) (x y : Int) (lf : obstaclelayer_t) :
    (obstaclemap_obstacle_exists m x y lf = true ↔
      ∃ o ∈ m, ignore_obstacle o lf = false ∧ o.got_collision x y x y = true) ∧
    (obstaclemap_solid_exists m x y lf = true ↔
      ∃ o ∈ m, ignore_obstacle o lf = false ∧ o.got_collision x y x y = true ∧ o.is_solid = true) ∧
    (obstaclemap_solid_exists m x y lf = true → obstaclemap_obstacle_exists m x y lf = true) := by
  have h1 : obstaclemap_obstacle_exists m x y lf = true ↔
      ∃ o ∈ m, ignore_obstacle o lf = false ∧ o.got_collision x y x y = true := by
    simp [obstaclemap_obstacle_exists, List.any_eq_true]
  have h2 : obstaclemap_solid_exists m x y lf = true ↔
      ∃ o ∈ m, ignore_obstacle o lf = false ∧ o.got_collision x y x y = true ∧ o.is_solid = true := by
    simp [obstaclemap_solid_exists, List.any_eq_true, and_assoc]
  refine ⟨h1, h2, fun hs => ?_⟩
  rcases h2.mp hs with ⟨o, ho, hig, hcol, -⟩
  exact h1.mpr ⟨o, ho, hig, hcol⟩

/-- C7 witness: the theorem instantiated at a concrete one-obstacle map
and a concrete query point. -/
theorem C7_exists_queries_witness :
    (obstaclemap_obstacle_exists [solidLow] 0 0 OL_DEFAULT = true ↔
      ∃ o ∈ ([solidLow] : obstaclemap_t),
        ignore_obstacle o OL_DEFAULT = false ∧ o.got_collision 0 0 0 0 = true) ∧
    (obstaclemap_solid_exists [solidLow] 0 0 OL_DEFAULT = true ↔
      ∃ o ∈ ([solidLow] : obstaclemap_t),
        ignore_obstacle o OL_DEFAULT = false ∧ o.got_collision 0 0 0 0 = true ∧ o.is_solid = true) ∧
    (obstaclemap_solid_exists [solidLow] 0 0 OL_DEFAULT = true →
      obstaclemap_obstacle_exists [solidLow] 0 0 OL_DEFAULT = true) :=
  C7_exists_queries [solidLow] 0 0 OL_DEFAULT

/-- C10: with exactly two one-way obstacles in the map, both visible and
both colliding, whose ground positions at (x2,y2) in direction DOWN are
equal, FLOOR-mode get_best_obstacle_at returns the later-inserted one:
the scan passes the current obstacle first to pick_best_obstacle, whose
one-way FLOOR comparison ha >= hb prefers its first argument on ties. -/
theorem C10_floor_tie_prefers_later (o0 o1 : obstacle_t) (x1 y1 x2 y2 : Int) (lf : obstaclelayer_t)
    (hs0 : o0.is_solid = false) (hs1 : o1.is_solid = false)
    (hi0 : ignore_obstacle o0 lf = false) (hi1 : ignore_obstacle o1 lf = false)
    (hc0 : o0.got_collision x1 y1 x2 y2 = true) (hc1 : o1.got_collision x1 y1 x2 y2 = true)
    (heq : o0.ground_position x2 y2 GD_DOWN = o1.ground_position x2 y2 GD_DOWN) :
    obstaclemap_get_best_obstacle_at [o0, o1] x1 y1 x2 y2 MM_FLOOR lf = some o1 := by
  have hpick1 : pick_best_obstacle (some o0) none x1 y1 x2 y2 MM_FLOOR = some o0 := rfl
  have hpick2 : pick_best_obstacle (some o1) (some o0) x1 y1 x2 y2 MM_FLOOR = some o1 := by
    simp [pick_best_obstacle, hs0, hs1, heq]
  simp [obstaclemap_get_best_obstacle_at, hi0, hi1, hc0, hc1, hpick1, hpick2]

/-- C10 witness: two concrete one-way obstacles with equal ground
positions; the second (later-inserted) one is returned. -/
theorem C10_floor_tie_prefers_later_witness :
    onewayLow.is_solid = false ∧ onewayTie.is_solid = false ∧
    ignore_obstacle onewayLow OL_DEFAULT = false ∧ ignore_obstacle onewayTie OL_DEFAULT = false ∧
    onewayLow.got_collision 0 0 5 5 = true ∧ onewayTie.got_collision 0 0 5 5 = true ∧
    onewayLow.ground_position 5 5 GD_DOWN = onewayTie.ground_position 5 5 GD_DOWN ∧
    obstaclemap_get_best_obstacle_at [onewayLow, onewayTie] 0 0 5 5 MM_FLOOR OL_DEFAULT = some onewayTie :=
  ⟨rfl, rfl, rfl, rfl, rfl, rfl, rfl,
    C10_floor_tie_prefers_later onewayLow onewayTie 0 0 5 5 OL_DEFAULT rfl rfl rfl rfl rfl rfl rfl⟩

end ObstacleMap
